import Mathlib

/-!
Shallow embedding of the decay-computation pipeline of src/app.py
(Content Decay Auditor).

Numeric representation: Google Search Console click and impression counts
are integers; the pandas dataframe carries them as floats but the code
only ever adds, subtracts, divides and rounds them.  We embed every
stored column as an integer (ℤ).  The two percentage columns produced by
numpy round(x, 2) always hold an integer number of hundredths of a
percent, so they are embedded exactly as that integer of hundredths
(e.g. the value -80.0 percent is stored as -8000); the helper pctValue
recovers the rational percentage a stored column denotes.  The ctr and
position columns are fetched and carried through the merge but never
enter any computed metric; they are carried as integer fields as their
arithmetic is never exercised by the code.
-/

namespace ContentDecayAuditor

/-- One fetched row of search-analytics data (src/app.py lines 150-157):
url, clicks, impressions, ctr, position. -/
structure Row where
  url : String
  clicks : ℤ
  impressions : ℤ
  ctr : ℤ
  position : ℤ
deriving DecidableEq, Repr

/-- Round-half-to-even (numpy rounding mode) of the rational a / b,
intended for b > 0.  q is the floor quotient and r the remainder,
so the fractional part of a / b is r / b. -/
def roundHalfEven (a b : ℤ) : ℤ :=
  let q := a / b
  let r := a % b
  if 2 * r < b then q
  else if b < 2 * r then q + 1
  else if q % 2 = 0 then q else q + 1

/-- The percentage-change computation of src/app.py lines 255-258 and
261-264: ((current - previous) / previous.replace(0, 1)) * 100, rounded
to two decimals.  Returned in hundredths of a percent, exactly:
round2((current - previous) / d * 100) * 100 = roundHalfEven of
(current - previous) * 10000 / d. -/
def pct_change_hundredths (current previous : ℤ) : ℤ :=
  roundHalfEven ((current - previous) * 10000) (if previous = 0 then 1 else previous)

/-- The rational percentage denoted by a stored hundredths column. -/
def pctValue (h : ℤ) : ℚ := (h : ℚ) / 100

/-- One row of merged_df before the change columns are added
(src/app.py lines 245-251): outer merge of the two fetched frames on
url, suffixes _current / _previous, missing side filled with 0. -/
structure MergedRow where
  url : String
  clicks_current : ℤ
  impressions_current : ℤ
  ctr_current : ℤ
  position_current : ℤ
  clicks_previous : ℤ
  impressions_previous : ℤ
  ctr_previous : ℤ
  position_previous : ℤ
deriving DecidableEq, Repr

/-- Merge one current-period row with its previous-period match, if any;
fillna(0) supplies the previous-side zeros when there is no match. -/
def mergeLeft (previous : List Row) (c : Row) : MergedRow :=
  match previous.find? (fun p => p.url == c.url) with
  | some p => ⟨c.url, c.clicks, c.impressions, c.ctr, c.position,
               p.clicks, p.impressions, p.ctr, p.position⟩
  | none => ⟨c.url, c.clicks, c.impressions, c.ctr, c.position, 0, 0, 0, 0⟩

/-- A previous-period row whose url is absent from the current period;
fillna(0) supplies the current-side zeros. -/
def mergeRightOnly (p : Row) : MergedRow :=
  ⟨p.url, 0, 0, 0, 0, p.clicks, p.impressions, p.ctr, p.position⟩

/-- The outer join performed by pd.merge(current_df, previous_df,
on='url', how='outer', suffixes=('_current', '_previous')).fillna(0)
(src/app.py lines 245-251) when both frames carry a url column, i.e.
when both fetched row lists are nonempty: every current row, matched
against the previous set, followed by the previous rows whose url has no
current match.  The final report order is fixed by the later sort, not
by this row order.  The empty-frame case, where the merge raises
instead, is modelled by pdMerge below. -/
def mergeOuter (current previous : List Row) : List MergedRow :=
  current.map (mergeLeft previous) ++
    (previous.filter
      (fun p => (current.find? (fun c => c.url == p.url)).isNone)).map mergeRightOnly

/-- The pd.merge call of src/app.py lines 245-251 as executed: a frame
built from an empty row list (pd.DataFrame()) has no columns at all, so
merging on 'url' raises KeyError whenever either input frame is empty;
only with both frames nonempty does the outer join happen. -/
def pdMerge (current previous : List Row) : Except String (List MergedRow) :=
  if current.isEmpty || previous.isEmpty then
    Except.error "KeyError: 'url'"
  else
    Except.ok (mergeOuter current previous)

/-- merged_df after the four derived change columns are added
(src/app.py lines 253-264).  The percentage columns are stored in
hundredths of a percent. -/
structure ChangedRow extends MergedRow where
  clicks_change : ℤ
  clicks_change_pct : ℤ
  impressions_change : ℤ
  impressions_change_pct : ℤ
deriving DecidableEq, Repr

/-- The change-column computation of src/app.py lines 253-264. -/
def computeChanges (m : MergedRow) : ChangedRow :=
  { toMergedRow := m
    clicks_change := m.clicks_current - m.clicks_previous
    clicks_change_pct := pct_change_hundredths m.clicks_current m.clicks_previous
    impressions_change := m.impressions_current - m.impressions_previous
    impressions_change_pct := pct_change_hundredths m.impressions_current m.impressions_previous }

/-- decay_threshold = -20 (percent) from src/app.py line 267, in
hundredths of a percent. -/
def decay_threshold_hundredths : ℤ := -2000

/-- The decay filter of src/app.py lines 268-271: keep rows with
clicks_change_pct <= decay_threshold and clicks_previous > 0. -/
def decayFilter (rows : List ChangedRow) : List ChangedRow :=
  rows.filter (fun r =>
    decide (r.clicks_change_pct ≤ decay_threshold_hundredths) &&
    decide (0 < r.clicks_previous))

/-- Comparison key of the sort at src/app.py line 274:
sort_values('clicks_change_pct'), ascending. -/
def pctLe (a b : ChangedRow) : Prop :=
  a.clicks_change_pct ≤ b.clicks_change_pct

instance : DecidableRel pctLe :=
  fun a b => inferInstanceAs (Decidable (a.clicks_change_pct ≤ b.clicks_change_pct))

instance : IsTotal ChangedRow pctLe :=
  ⟨fun a b => Int.le_total a.clicks_change_pct b.clicks_change_pct⟩

instance : IsTrans ChangedRow pctLe :=
  ⟨fun _ _ _ hab hbc => le_trans hab hbc⟩

/-- decay_df.sort_values('clicks_change_pct')  (src/app.py line 274). -/
def sortDecay (rows : List ChangedRow) : List ChangedRow :=
  List.insertionSort pctLe rows

/-- decay_df of src/app.py lines 266-274: merge, derive changes, filter,
sort ascending by clicks_change_pct. -/
def decayReport (current previous : List Row) : List ChangedRow :=
  sortDecay (decayFilter ((mergeOuter current previous).map computeChanges))

/-- decay_clicks_lost = decay_df['clicks_change'].sum()
(src/app.py line 298). -/
def decay_clicks_lost (rows : List ChangedRow) : ℤ :=
  (rows.map ChangedRow.clicks_change).sum

/-- The analyze branch of main (src/app.py lines 240-274): after both
fetches, if both dataframes are empty the run stops at st.error with no
report; otherwise pd.merge runs - raising KeyError when exactly one
frame is empty and column-less - and only a successful merge reaches the
change computation, filter and sort. -/
def runAudit (current previous : List Row) : Except String (List ChangedRow) :=
  if current.isEmpty && previous.isEmpty then
    Except.error "No data available for the selected periods."
  else
    match pdMerge current previous with
    | Except.error e => Except.error e
    | Except.ok merged => Except.ok (sortDecay (decayFilter (merged.map computeChanges)))

/-- Outcome of one searchanalytics query: either the request raised
HttpError, or it returned a list of rows (possibly empty). -/
inductive FetchResult where
  | httpError : FetchResult
  | success : List Row → FetchResult
deriving DecidableEq, Repr

/-- fetch_search_analytics (src/app.py lines 133-162): on HttpError the
function shows st.error and returns an empty dataframe; otherwise it
returns the fetched rows. -/
def fetch_search_analytics : FetchResult → List Row
  | FetchResult.httpError => []
  | FetchResult.success rows => rows

/-- The fetch-then-analyze flow of main (src/app.py lines 223-274):
both periods are fetched through fetch_search_analytics and the results
are handed to the audit. -/
def runMain (currentFetch previousFetch : FetchResult) : Except String (List ChangedRow) :=
  runAudit (fetch_search_analytics currentFetch) (fetch_search_analytics previousFetch)

/-- A date range, as a pair of day numbers (start and end). -/
structure DateRange where
  start : ℤ
  end_ : ℤ
deriving DecidableEq, Repr

/-- The pair of analysis windows. -/
structure DateRanges where
  current : DateRange
  previous : DateRange
deriving DecidableEq, Repr

/-- calculate_date_ranges (src/app.py lines 164-179), with dates as day
numbers and today supplied as the environment clock reading that
datetime.now().date() returns: current_end = today - 1,
current_start = current_end - 89, previous window both endpoints
shifted back 365 days. -/
def calculate_date_ranges (today : ℤ) : DateRanges :=
  let current_end := today - 1
  let current_start := current_end - 89
  { current := ⟨current_start, current_end⟩
    previous := ⟨current_start - 365, current_end - 365⟩ }

/-- Modelled from the spec (section 4.1), for comparison with the code:
the Date Window Calculator formulas under a configuration
(report_lag_days, window_length_days, yoy_offset_days). -/
def spec_date_ranges (today report_lag_days window_length_days yoy_offset_days : ℤ) : DateRanges :=
  let recent_end := today - report_lag_days
  let recent_start := recent_end - (window_length_days - 1)
  { current := ⟨recent_start, recent_end⟩
    previous := ⟨recent_start - yoy_offset_days, recent_end - yoy_offset_days⟩ }

/-- Modelled from the spec (section 4.2), for comparison with the code:
decay_score = abs(click_delta) * click_weight + position_delta *
position_weight, as a rational value of a record. -/
def decay_score_spec (click_weight position_weight : ℚ) (r : ChangedRow) : ℚ :=
  |(r.clicks_change : ℚ)| * click_weight +
    ((r.position_current : ℚ) - (r.position_previous : ℚ)) * position_weight

/-- The four derived per-record metrics the code computes (src/app.py
lines 253-264), as the rational values they denote. -/
def derivedValues (r : ChangedRow) : List ℚ :=
  [(r.clicks_change : ℚ), pctValue r.clicks_change_pct,
   (r.impressions_change : ℚ), pctValue r.impressions_change_pct]

/-- Modelled from the spec (P5): sorted descending by decay score, ties
ordered with the more negative click delta first. -/
def scoreSortedDesc (click_weight position_weight : ℚ) (l : List ChangedRow) : Prop :=
  l.Pairwise (fun a b =>
    decay_score_spec click_weight position_weight a >
      decay_score_spec click_weight position_weight b ∨
    (decay_score_spec click_weight position_weight a =
      decay_score_spec click_weight position_weight b ∧
     a.clicks_change ≤ b.clicks_change))

/-- Sample merged row: 5 recent clicks, no past clicks. -/
def mZeroBase : MergedRow := ⟨"d", 5, 0, 0, 0, 0, 0, 0, 0⟩

/-- Sample merged row: 50 recent clicks against a baseline of 100. -/
def mHalved : MergedRow := ⟨"c", 50, 0, 0, 0, 100, 0, 0, 0⟩

/-- Sample current-period rows for the sort counterexample. -/
def c4current : List Row := [⟨"a", 50, 0, 0, 0⟩, ⟨"b", 790, 0, 0, 0⟩]

/-- Sample previous-period rows for the sort counterexample. -/
def c4previous : List Row := [⟨"a", 100, 0, 0, 0⟩, ⟨"b", 1000, 0, 0, 0⟩]

/-- Sample current-period rows for the filter counterexample. -/
def c2current : List Row := [⟨"e", 5, 0, 0, 0⟩]

/-- Sample previous-period rows for the filter counterexample. -/
def c2previous : List Row := [⟨"e", 25, 0, 0, 0⟩]

/-- Sample previous-period row with 30 clicks. -/
def rowB30 : Row := ⟨"/b", 30, 0, 0, 0⟩

/-- The single decay record produced for the c2current / c2previous
inputs: 5 recent clicks against a baseline of 25. -/
def c2record : ChangedRow := ⟨⟨"e", 5, 0, 0, 0, 25, 0, 0, 0⟩, -20, -8000, 0, 0⟩

/-- Sample current-period rows for the join coverage witness. -/
def c5current : List Row := [⟨"a", 1, 2, 0, 0⟩]

/-- Sample previous-period rows for the join coverage witness. -/
def c5previous : List Row := [⟨"b", 3, 4, 0, 0⟩]

/-- Rounding by one is the identity: a / 1 with remainder 0. -/
lemma roundHalfEven_one (a : ℤ) : roundHalfEven a 1 = a := by
  simp [roundHalfEven, Int.emod_one]

/-- Round-half-to-even lands on the floor quotient or one above it. -/
lemma roundHalfEven_cases (a b : ℤ) :
    roundHalfEven a b = a / b ∨ roundHalfEven a b = a / b + 1 := by
  simp only [roundHalfEven]
  split_ifs <;> simp

/-- A record of the report comes from the filter applied to the image of
computeChanges: its change fields obey the computed formulas and it
passed both filter conditions. -/
lemma mem_decayReport {current previous : List Row} {r : ChangedRow}
    (h : r ∈ decayReport current previous) :
    r.clicks_change = r.clicks_current - r.clicks_previous ∧
    r.clicks_change_pct = pct_change_hundredths r.clicks_current r.clicks_previous ∧
    r.clicks_change_pct ≤ decay_threshold_hundredths ∧
    0 < r.clicks_previous := by
  unfold decayReport sortDecay at h
  have h1 : r ∈ decayFilter ((mergeOuter current previous).map computeChanges) :=
    (List.perm_insertionSort pctLe _).mem_iff.mp h
  rw [decayFilter, List.mem_filter] at h1
  obtain ⟨hmem, hcond⟩ := h1
  simp only [Bool.and_eq_true, decide_eq_true_eq] at hcond
  obtain ⟨m, _, rfl⟩ := List.mem_map.mp hmem
  exact ⟨rfl, rfl, hcond.1, hcond.2⟩

/-- A stored percentage of at most -2000 hundredths denotes a real
percentage of at most -20. -/
lemma pctValue_le_neg20 {x : ℤ} (h : x ≤ decay_threshold_hundredths) :
    pctValue x ≤ -20 := by
  unfold decay_threshold_hundredths at h
  unfold pctValue
  rw [div_le_iff₀ (by norm_num : (0:ℚ) < 100)]
  norm_num
  exact_mod_cast h

/-- Passing the percentage filter with a positive baseline forces a
strict click decline. -/
lemma pct_neg {c p : ℤ} (hp : 0 < p)
    (h : pct_change_hundredths c p ≤ decay_threshold_hundredths) : c < p := by
  unfold pct_change_hundredths at h
  rw [if_neg (by omega : ¬ p = 0)] at h
  unfold decay_threshold_hundredths at h
  rcases roundHalfEven_cases ((c - p) * 10000) p with hc | hc <;> rw [hc] at h
  all_goals
    by_contra hcp
    push_neg at hcp
    have h0 : (0:ℤ) ≤ (c - p) * 10000 := mul_nonneg (by omega) (by norm_num)
    have h1 : (0:ℤ) ≤ (c - p) * 10000 / p := Int.ediv_nonneg h0 (by omega)
    omega

/-- A nonempty list of strictly negative integers has a strictly
negative sum. -/
lemma sum_neg (l : List ℤ) : l ≠ [] → (∀ x ∈ l, x < 0) → l.sum < 0 := by
  induction l with
  | nil => intro h _; exact absurd rfl h
  | cons x t ih =>
    intro _ h
    rw [List.sum_cons]
    rcases eq_or_ne t [] with ht | ht
    · subst ht; simpa using h x (by simp)
    · have h1 := ih ht (fun z hz => h z (by simp [hz]))
      have h2 := h x (by simp)
      linarith

/-- C1 counterexample: a merged row with clicks_previous = 0 and
clicks_current = 5 gets a computed click percentage change of 500, not
0: the code divides by previous.replace(0, 1), it does not apply the
explicit-zero policy. -/
theorem C1_counterexample :
    mZeroBase.clicks_previous = 0 ∧
    pctValue (computeChanges mZeroBase).clicks_change_pct ≠ 0 := by
  constructor
  · rfl
  · have h : (computeChanges mZeroBase).clicks_change_pct = 50000 := by decide
    rw [h]
    unfold pctValue
    norm_num

/-- C1 (amended): for every merged row with past-period clicks equal to
zero, the computed click percentage change equals clicks_current * 100
(the zero baseline is replaced by 1), which is 0 only when
clicks_current is also 0. -/
theorem C1_zero_baseline_pct (m : MergedRow) (hm : m.clicks_previous = 0) :
    pctValue (computeChanges m).clicks_change_pct = (m.clicks_current : ℚ) * 100 := by
  have h : (computeChanges m).clicks_change_pct = m.clicks_current * 10000 := by
    show pct_change_hundredths m.clicks_current m.clicks_previous = _
    rw [hm]
    unfold pct_change_hundredths
    rw [if_pos rfl, roundHalfEven_one]
    ring
  rw [h]
  unfold pctValue
  push_cast
  ring

/-- C1 witness: the theorem applied to the concrete zero-baseline row. -/
theorem C1_zero_baseline_pct_witness :
    mZeroBase.clicks_previous = 0 ∧
    pctValue (computeChanges mZeroBase).clicks_change_pct = 500 := by
  refine ⟨rfl, ?_⟩
  rw [C1_zero_baseline_pct mZeroBase rfl]
  norm_num [mZeroBase]

/-- C2 counterexample: with the spec's Scenario D thresholds
(min_click_loss = 25), a record with click delta -20 should be excluded,
but the code retains it: its filter has no absolute click-loss
condition at all. -/
theorem C2_counterexample :
    (decayReport c2current c2previous).map ChangedRow.clicks_change = [-20] ∧
    ¬ ((-20 : ℤ) ≤ -25) := by decide

/-- C2 (amended): every record retained in the decay report satisfies
clicks_change_pct ≤ -20 percent and clicks_previous > 0; there is no
minimum absolute click-loss condition in the code. -/
theorem C2_filter_invariant (current previous : List Row) (r : ChangedRow)
    (h : r ∈ decayReport current previous) :
    pctValue r.clicks_change_pct ≤ -20 ∧ 0 < r.clicks_previous := by
  obtain ⟨-, -, h3, h4⟩ := mem_decayReport h
  exact ⟨pctValue_le_neg20 h3, h4⟩

/-- C2 witness: the theorem applied to the concrete retained record. -/
theorem C2_filter_invariant_witness :
    c2record ∈ decayReport c2current c2previous ∧
    (pctValue c2record.clicks_change_pct ≤ -20 ∧ 0 < c2record.clicks_previous) :=
  ⟨by decide, C2_filter_invariant c2current c2previous c2record (by decide)⟩

/-- C8 counterexample: with both input sets empty the pipeline does not
produce a valid empty report. -/
theorem C8_counterexample : runAudit ([] : List Row) [] ≠ Except.ok [] := by
  intro h
  rw [show runAudit ([] : List Row) [] =
      Except.error "No data available for the selected periods." from rfl] at h
  exact Except.noConfusion h

/-- C8 (amended): when both input MetricSets are empty the run signals
an error ("No data available for the selected periods.") and produces no
report at all. -/
theorem C8_empty_is_error :
    runAudit ([] : List Row) [] =
      Except.error "No data available for the selected periods." := rfl

/-- C9: the composition of merge, change computation, filter and sort is
deterministic: equal inputs give identical reports, including record
order. -/
theorem C9_deterministic (current previous current2 previous2 : List Row)
    (h1 : current = current2) (h2 : previous = previous2) :
    runAudit current previous = runAudit current2 previous2 := by
  rw [h1, h2]

/-- C9 witness: the theorem applied at a concrete input. -/
theorem C9_deterministic_witness :
    runAudit [] [rowB30] = runAudit [] [rowB30] :=
  C9_deterministic [] [rowB30] [] [rowB30] rfl rfl

/-- C10: every record of the decay report has strictly fewer recent
clicks than past clicks, and a nonempty report has a strictly negative
summed click change. -/
theorem C10_strict_decline (current previous : List Row) :
    (∀ r ∈ decayReport current previous, r.clicks_current < r.clicks_previous) ∧
    (decayReport current previous ≠ [] →
      decay_clicks_lost (decayReport current previous) < 0) := by
  constructor
  · intro r hr
    obtain ⟨-, h2, h3, h4⟩ := mem_decayReport hr
    exact pct_neg h4 (h2 ▸ h3)
  · intro hne
    unfold decay_clicks_lost
    apply sum_neg
    · intro hmap
      exact hne (List.map_eq_nil_iff.mp hmap)
    · intro x hx
      obtain ⟨r, hr, rfl⟩ := List.mem_map.mp hx
      obtain ⟨h1, h2, h3, h4⟩ := mem_decayReport hr
      have h5 := pct_neg h4 (h2 ▸ h3)
      omega

/-- C10 witness: the theorem applied at a concrete nonempty input. -/
theorem C10_strict_decline_witness :
    decayReport [] [rowB30] ≠ [] ∧
    decay_clicks_lost (decayReport [] [rowB30]) < 0 :=
  ⟨by decide, (C10_strict_decline [] [rowB30]).2 (by decide)⟩

/-- C6 counterexample: the date calculator does not follow the claimed
formulas for an arbitrary valid configuration; at report_lag_days = 3
(a value the spec itself lists as occurring) its output differs. -/
theorem C6_counterexample :
    (0:ℤ) < 90 ∧ (90:ℤ) ≤ 365 ∧
    calculate_date_ranges 0 ≠ spec_date_ranges 0 3 90 365 := by decide

/-- C6 (amended): the date calculator implements the claimed window
formulas only for the fixed built-in configuration report_lag_days = 1,
window_length_days = 90, yoy_offset_days = 365; both windows have
length 90 and do not overlap. -/
theorem C6_fixed_config (today : ℤ) :
    calculate_date_ranges today = spec_date_ranges today 1 90 365 ∧
    (calculate_date_ranges today).current.end_ -
      (calculate_date_ranges today).current.start = 89 ∧
    (calculate_date_ranges today).previous.end_ -
      (calculate_date_ranges today).previous.start = 89 ∧
    (calculate_date_ranges today).previous.end_ <
      (calculate_date_ranges today).current.start := by
  refine ⟨?_, ?_, ?_, ?_⟩ <;>
    simp [calculate_date_ranges, spec_date_ranges]

/-- C7 counterexample: a failed recent-period fetch is caught and
replaced by the default empty frame, indistinguishable from a
successful fetch that returned no rows; the run then aborts with the
KeyError raised by pd.merge on the column-less frame, not by
propagating the fetch error. -/
theorem C7_counterexample :
    fetch_search_analytics FetchResult.httpError =
      fetch_search_analytics (FetchResult.success []) ∧
    runMain FetchResult.httpError (FetchResult.success [rowB30]) =
      Except.error "KeyError: 'url'" :=
  ⟨rfl, rfl⟩

/-- C7 (amended): a failed fetch is caught, reported on screen, and
silently replaced by the default empty frame, so downstream the run
cannot distinguish it from a successful empty fetch; no report is ever
produced after a fetch failure, but only because the run then aborts
with the no-data error (other side also empty) or crashes with KeyError
at the merge (other side has data) - the fetch error itself is never
propagated and no partial-results option exists. -/
theorem C7_fetch_error_no_report (fr : FetchResult) :
    runMain FetchResult.httpError fr = runMain (FetchResult.success []) fr ∧
    ∃ e, runMain FetchResult.httpError fr = Except.error e := by
  refine ⟨rfl, ?_⟩
  cases hl : fetch_search_analytics fr with
  | nil =>
    refine ⟨"No data available for the selected periods.", ?_⟩
    unfold runMain
    rw [hl, show fetch_search_analytics FetchResult.httpError = [] from rfl]
    rfl
  | cons a t =>
    refine ⟨"KeyError: 'url'", ?_⟩
    unfold runMain
    rw [hl, show fetch_search_analytics FetchResult.httpError = [] from rfl]
    rfl

/-- C3 counterexample: for the halved-traffic row the spec's decay score
(35 with the default weights) is not among the derived metrics the code
computes for the record: no decay score exists in the pipeline. -/
theorem C3_counterexample :
    decay_score_spec (7/10) (3/10) (computeChanges mHalved) ∉
      derivedValues (computeChanges mHalved) := by
  have h : computeChanges mHalved =
      ⟨⟨"c", 50, 0, 0, 0, 100, 0, 0, 0⟩, -50, -5000, 0, 0⟩ := by decide
  rw [h]
  simp only [derivedValues, decay_score_spec, pctValue, List.mem_cons,
    List.not_mem_nil, or_false]
  push_cast
  rw [show |(-50 : ℚ)| = 50 by norm_num]
  norm_num

/-- C3 (amended): the code computes no composite decay score; its
derived per-record metrics are the click and impression deltas and
rounded percentage changes, and they are independent of the position
fields, so no position-weighted blend exists anywhere in the engine. -/
theorem C3_no_position_in_metrics (m : MergedRow) (p1 p2 : ℤ) :
    derivedValues (computeChanges
      { m with position_current := p1, position_previous := p2 }) =
      derivedValues (computeChanges m) := rfl

/-- C4 counterexample: the report for the c4 inputs is ordered by
ascending percentage change, which puts the record with spec decay score
35 before the record with score 147: the order is not descending by
decay score. -/
theorem C4_counterexample :
    ¬ scoreSortedDesc (7/10) (3/10) (decayReport c4current c4previous) := by
  have h : decayReport c4current c4previous =
      [⟨⟨"a", 50, 0, 0, 0, 100, 0, 0, 0⟩, -50, -5000, 0, 0⟩,
       ⟨⟨"b", 790, 0, 0, 0, 1000, 0, 0, 0⟩, -210, -2100, 0, 0⟩] := by decide
  rw [h]
  intro hs
  unfold scoreSortedDesc at hs
  rw [List.pairwise_cons] at hs
  have h2 := hs.1 ⟨⟨"b", 790, 0, 0, 0, 1000, 0, 0, 0⟩, -210, -2100, 0, 0⟩
    (List.mem_singleton.mpr rfl)
  simp only [decay_score_spec] at h2
  push_cast at h2
  rw [show |(-50 : ℚ)| = 50 by norm_num,
    show |(-210 : ℚ)| = 210 by norm_num] at h2
  rcases h2 with h2 | ⟨h2, -⟩ <;> norm_num at h2

/-- Merging keeps the url of the left row. -/
lemma url_mergeLeft (previous : List Row) (c : Row) :
    (mergeLeft previous c).url = c.url := by
  unfold mergeLeft
  split <;> rfl

/-- The url column of the merged frame is the current urls followed by
the unmatched previous urls. -/
lemma map_url_mergeOuter (current previous : List Row) :
    (mergeOuter current previous).map MergedRow.url =
      current.map Row.url ++
        (previous.filter
          (fun p => (current.find? (fun c => c.url == p.url)).isNone)).map Row.url := by
  unfold mergeOuter
  rw [List.map_append, List.map_map, List.map_map]
  congr 1
  exact List.map_congr_left (fun c _ => url_mergeLeft previous c)

/-- A url lookup finds nothing exactly when the url is absent from the
url column. -/
lemma find?_none_iff (l : List Row) (u : String) :
    (l.find? (fun c => c.url == u)).isNone = true ↔ u ∉ l.map Row.url := by
  rw [Option.isNone_iff_eq_none, List.find?_eq_none]
  simp [List.mem_map]

/-- In a duplicate-free list a member is counted exactly once. -/
lemma count_eq_one_of_nodup_mem {α : Type} [BEq α] [LawfulBEq α] {a : α} {l : List α}
    (hn : l.Nodup) (hm : a ∈ l) : List.count a l = 1 := by
  induction l with
  | nil => cases hm
  | cons b t ih =>
    rw [List.nodup_cons] at hn
    rcases List.mem_cons.mp hm with rfl | hmt
    · rw [List.count_cons_self, List.count_eq_zero.mpr hn.1]
    · have hne : a ≠ b := fun h => hn.1 (h ▸ hmt)
      rw [List.count_cons_of_ne hne]
      exact ih hn.2 hmt

/-- Filtering by a predicate the element satisfies keeps its count. -/
lemma count_filter_pos {α : Type} [BEq α] [LawfulBEq α] (p : α → Bool) (a : α)
    (l : List α) (h : p a = true) : List.count a (l.filter p) = List.count a l := by
  induction l with
  | nil => rfl
  | cons b t ih =>
    by_cases hab : a = b
    · subst hab
      simp only [List.filter_cons, h]
      rw [if_pos trivial, List.count_cons_self, List.count_cons_self, ih]
    · cases hpb : p b with
      | false =>
        simp only [List.filter_cons, hpb]
        rw [if_neg (by simp), List.count_cons_of_ne hab, ih]
      | true =>
        simp only [List.filter_cons, hpb]
        rw [if_pos trivial, List.count_cons_of_ne hab, List.count_cons_of_ne hab, ih]

/-- Count of a url among the unmatched previous rows: one exactly when
the url is a previous url with no current match. -/
lemma count_filtered (current previous : List Row)
    (hp : (previous.map Row.url).Nodup) (u : String) :
    List.count u ((previous.filter
        (fun p => (current.find? (fun c => c.url == p.url)).isNone)).map Row.url) =
      if u ∈ previous.map Row.url ∧ u ∉ current.map Row.url then 1 else 0 := by
  rw [show (fun p => (current.find? (fun c => c.url == p.url)).isNone) =
      ((fun s => (current.find? (fun c => c.url == s)).isNone) ∘ Row.url) from rfl]
  rw [← List.filter_map]
  by_cases hq : (current.find? (fun c => c.url == u)).isNone = true
  · rw [count_filter_pos (fun s => (current.find? (fun c => c.url == s)).isNone) u
      (previous.map Row.url) hq]
    have hnc : u ∉ current.map Row.url := (find?_none_iff current u).mp hq
    by_cases hpu : u ∈ previous.map Row.url
    · rw [if_pos ⟨hpu, hnc⟩]
      exact count_eq_one_of_nodup_mem hp hpu
    · rw [if_neg (fun hand => hpu hand.1)]
      exact List.count_eq_zero.mpr hpu
  · have hnc : u ∈ current.map Row.url := by
      by_contra hno
      exact hq ((find?_none_iff current u).mpr hno)
    rw [if_neg (fun hand => hand.2 hnc)]
    apply List.count_eq_zero.mpr
    intro hmem
    exact hq (List.mem_filter.mp hmem).2

/-- C5 counterexample: the spec's own Scenario B input - empty recent
set, one previous row. pd.DataFrame() built from no rows has no url
column, so the merge raises KeyError and produces no record for "/b"
even though "/b" appears in one of the input sets. -/
theorem C5_counterexample :
    pdMerge [] [rowB30] = Except.error "KeyError: 'url'" ∧
    "/b" ∈ [rowB30].map Row.url :=
  ⟨rfl, by decide⟩

/-- C5 (amended): when both input MetricSets are nonempty (so both
frames carry a url column and the merge succeeds) and urls are unique
within each set, the outer merge yields exactly one record per url
appearing in either set, and the side a url is missing from contributes
all-zero metrics (fillna(0)); with an empty side the merge raises
KeyError instead of joining. -/
theorem C5_outer_join_coverage (current previous : List Row)
    (hcne : current ≠ []) (hpne : previous ≠ [])
    (hc : (current.map Row.url).Nodup) (hp : (previous.map Row.url).Nodup) :
    pdMerge current previous = Except.ok (mergeOuter current previous) ∧
    (∀ u : String,
      List.count u ((mergeOuter current previous).map MergedRow.url) =
        if u ∈ current.map Row.url ∨ u ∈ previous.map Row.url then 1 else 0) ∧
    (∀ r ∈ mergeOuter current previous,
      (r.url ∉ previous.map Row.url →
        r.clicks_previous = 0 ∧ r.impressions_previous = 0 ∧
        r.ctr_previous = 0 ∧ r.position_previous = 0) ∧
      (r.url ∉ current.map Row.url →
        r.clicks_current = 0 ∧ r.impressions_current = 0 ∧
        r.ctr_current = 0 ∧ r.position_current = 0)) := by
  refine ⟨?_, ?_, ?_⟩
  · have h1 : current.isEmpty = false := by
      cases current with
      | nil => exact absurd rfl hcne
      | cons a t => rfl
    have h2 : previous.isEmpty = false := by
      cases previous with
      | nil => exact absurd rfl hpne
      | cons a t => rfl
    simp [pdMerge, h1, h2]
  · intro u
    rw [map_url_mergeOuter, List.count_append, count_filtered current previous hp u]
    by_cases hcu : u ∈ current.map Row.url <;> by_cases hpu : u ∈ previous.map Row.url
    · rw [if_pos (Or.inl hcu), count_eq_one_of_nodup_mem hc hcu,
        if_neg (fun hand => hand.2 hcu)]
    · rw [if_pos (Or.inl hcu), count_eq_one_of_nodup_mem hc hcu,
        if_neg (fun hand => hpu hand.1)]
    · rw [if_pos (Or.inr hpu), List.count_eq_zero.mpr hcu, if_pos ⟨hpu, hcu⟩]
    · rw [if_neg (fun hor => Or.elim hor hcu hpu), List.count_eq_zero.mpr hcu,
        if_neg (fun hand => hpu hand.1)]
  · intro r hr
    unfold mergeOuter at hr
    rw [List.mem_append] at hr
    rcases hr with hl | hrr
    · obtain ⟨c, hc_mem, rfl⟩ := List.mem_map.mp hl
      constructor
      · intro hnp
        rw [url_mergeLeft] at hnp
        have hfind : previous.find? (fun p => p.url == c.url) = none :=
          Option.isNone_iff_eq_none.mp ((find?_none_iff previous c.url).mpr hnp)
        simp [mergeLeft, hfind]
      · intro hnc
        exact absurd (by rw [url_mergeLeft]
                         exact List.mem_map.mpr ⟨c, hc_mem, rfl⟩) hnc
    · obtain ⟨p, hp_mem, rfl⟩ := List.mem_map.mp hrr
      have hp2 := List.mem_filter.mp hp_mem
      constructor
      · intro hnp
        exact absurd (List.mem_map.mpr ⟨p, hp2.1, rfl⟩) hnp
      · intro _
        exact ⟨rfl, rfl, rfl, rfl⟩

/-- C5 witness: the theorem applied at concrete disjoint one-row sets. -/
theorem C5_outer_join_coverage_witness :
    (c5current ≠ [] ∧ c5previous ≠ [] ∧
     (c5current.map Row.url).Nodup ∧ (c5previous.map Row.url).Nodup) ∧
    List.count "a" ((mergeOuter c5current c5previous).map MergedRow.url) =
      (if "a" ∈ c5current.map Row.url ∨ "a" ∈ c5previous.map Row.url then 1 else 0) :=
  ⟨⟨by decide, by decide, by decide, by decide⟩,
    (C5_outer_join_coverage c5current c5previous
      (by decide) (by decide) (by decide) (by decide)).2.1 "a"⟩

/-- C4 (amended): the report records are sorted in ascending order of
the clicks_change_pct column (most severe percentage decline first) and
are a permutation of the filtered records; no decay-score ordering and
no tie-break rule exist. -/
theorem C4_sorted_by_pct (current previous : List Row) :
    List.Sorted pctLe (decayReport current previous) ∧
    (decayReport current previous).Perm
      (decayFilter ((mergeOuter current previous).map computeChanges)) :=
  ⟨List.sorted_insertionSort pctLe _, List.perm_insertionSort pctLe _⟩

end ContentDecayAuditor
